import Mathlib

/-!
Verification development for the `bot_vk_icemanager` moderation bot.

This file gives a shallow embedding of the parts of the program relevant to
the access-control, warning, mute, ban and parsing logic:

* `database.py` — the SQLite layer, modelled as association lists inside a
  `DB` record with explicit `now : Nat` timestamps passed where the source
  calls `time.time()`;
* `bot.py` — `check_access`, `has_rights`, `check_cooldown`, `is_muted`,
  `extract_user_id_from_mention`, and the non-command branch of
  `handle_message`;
* `utils.py` — `parse_time`;
* `commands.py` — `cmd_warn`, `cmd_ban`, `cmd_removeadmin`, modelled as
  state transformers returning a trace of externally visible effects.

Python exceptions that the source lets escape are modelled with `Option`
(`none` = an exception propagates); exceptions the source catches and turns
into a sentinel value are modelled directly by that sentinel.  Calls to the
VK remote API are modelled through a `VkEnv` record of oracles.
-/

namespace IceManager

/-! ## Association-list helpers (model of keyed SQLite tables) -/

/-- Lookup by key in an association list (first matching row wins; the
SQLite tables modelled here have unique keys — `PRIMARY KEY` columns — so
first-match semantics coincides with `SELECT ... WHERE key = ?`). -/
def alookup {α β : Type} [DecidableEq α] : List (α × β) → α → Option β
  | [], _ => none
  | e :: rest, k => if e.1 = k then some e.2 else alookup rest k

/-- `INSERT ... ON CONFLICT DO UPDATE` / `INSERT OR REPLACE`: replace the
row in place when the key exists, otherwise append a fresh row. -/
def aupsert {α β : Type} [DecidableEq α] : List (α × β) → α → β → List (α × β)
  | [], k, v => [(k, v)]
  | e :: rest, k, v =>
    if e.1 = k then (k, v) :: rest else e :: aupsert rest k v

/-- `UPDATE ... WHERE key = ?`: update the row when present, no-op when the
key is absent (SQLite `UPDATE` matching zero rows). -/
def aupdate {α β : Type} [DecidableEq α] : List (α × β) → α → (β → β) → List (α × β)
  | [], _, _ => []
  | e :: rest, k, f =>
    (if e.1 = k then (e.1, f e.2) else e) :: aupdate rest k f

/-- Whether a key is present (`rowcount > 0` for an `UPDATE`). -/
def ahas {α β : Type} [DecidableEq α] : List (α × β) → α → Bool
  | [], _ => false
  | e :: rest, k => decide (e.1 = k) || ahas rest k

/-! ## Data model (database.py `init_db` schema) -/

/-- One row of the `users` table.  Column defaults follow the schema:
`role TEXT DEFAULT 'user'`, counters default 0, `mute_until` 0,
`ban_reason` NULL. -/
structure UserRow where
  nickname : Option String := none
  role : String := "user"
  messages_count : Nat := 0
  warns : Nat := 0
  mute_until : Nat := 0
  ban_reason : Option String := none
  reg_date : Nat := 0
deriving DecidableEq, Repr

/-- One row of the `warns` table (`id INTEGER PRIMARY KEY AUTOINCREMENT`). -/
structure WarnRow where
  id : Nat
  user_id : Nat
  reason : String
  timestamp : Nat
deriving DecidableEq, Repr

/-- One row of the `bans` table (keyed by `user_id`). -/
structure BanRow where
  reason : String
  ban_timestamp : Nat
deriving DecidableEq, Repr

/-- The whole SQLite database.  `next_warn_id` models the AUTOINCREMENT
counter of the `warns` table. -/
structure DB where
  users : List (Nat × UserRow)
  warns : List WarnRow
  next_warn_id : Nat
  bans : List (Nat × BanRow)
  conv_roles : List ((Nat × Nat) × String)
deriving DecidableEq, Repr

/-! ## database.py operations -/

/-- `get_user`: returns the row or `None`. -/
def DB.get_user (db : DB) (u : Nat) : Option UserRow :=
  alookup db.users u

/-- `add_user`: `INSERT OR IGNORE INTO users (user_id, reg_date)`. -/
def DB.add_user (db : DB) (u : Nat) (now : Nat) : DB :=
  if ahas db.users u then db
  else { db with users := db.users ++ [(u, { reg_date := now })] }

/-- `update_message_count`: `INSERT ... VALUES (?, 1, ?) ON CONFLICT
DO UPDATE SET messages_count = messages_count + 1`. -/
def DB.update_message_count (db : DB) (u : Nat) (now : Nat) : DB :=
  if ahas db.users u then
    { db with users :=
        aupdate db.users u (fun r => { r with messages_count := r.messages_count + 1 }) }
  else
    { db with users := db.users ++ [(u, { messages_count := 1, reg_date := now })] }

/-- `add_warn`: inserts a `warns` row, increments the user's counter, then
re-reads the counter.  The final `cursor.fetchone()[0]` raises `TypeError`
when the user row is absent; that uncaught exception is modelled by `none`.
Every caller in `commands.py` runs `db.add_user` first, so the `none`
branch is unreachable there. -/
def DB.add_warn (db : DB) (u : Nat) (reason : String) (now : Nat) :
    Option (Nat × DB) :=
  let db1 : DB :=
    { db with
      warns := db.warns ++ [⟨db.next_warn_id, u, reason, now⟩],
      next_warn_id := db.next_warn_id + 1 }
  let db2 : DB :=
    { db1 with users := aupdate db1.users u (fun r => { r with warns := r.warns + 1 }) }
  match alookup db2.users u with
  | none => none
  | some r => some (r.warns, db2)

/-- `SELECT id FROM warns WHERE user_id = ? ORDER BY timestamp DESC LIMIT 1`:
the entry of maximal timestamp.  SQLite leaves the order of equal
timestamps unspecified; this model keeps the earliest-inserted one among
ties, and no theorem below depends on the tie-break. -/
def selectNewestWarn (l : List WarnRow) : Option WarnRow :=
  l.foldl
    (fun acc e =>
      match acc with
      | none => some e
      | some b => if b.timestamp < e.timestamp then some e else some b)
    none

/-- The `warns` rows of one user (`SELECT ... FROM warns WHERE user_id = ?`). -/
def warnEntries (db : DB) (u : Nat) : List WarnRow :=
  db.warns.filter (fun w => w.user_id = u)

/-- `remove_warn`: returns 0 untouched when the user has no warn entries;
otherwise deletes the selected entry by id, floors the counter at zero
(`SET warns = MAX(0, warns - 1)`, which on `Nat` is truncated subtraction),
and re-reads the counter (0 when the user row is missing). -/
def DB.remove_warn (db : DB) (u : Nat) : Nat × DB :=
  match selectNewestWarn (warnEntries db u) with
  | none => (0, db)
  | some w =>
    let db1 : DB := { db with warns := db.warns.filter (fun e => e.id ≠ w.id) }
    let db2 : DB :=
      { db1 with users := aupdate db1.users u (fun r => { r with warns := r.warns - 1 }) }
    match alookup db2.users u with
    | none => (0, db2)
    | some r => (r.warns, db2)

/-- `get_warns`: the stored counter, 0 when the row is absent. -/
def DB.get_warns (db : DB) (u : Nat) : Nat :=
  match alookup db.users u with
  | some r => r.warns
  | none => 0

/-- `set_mute`: `UPDATE users SET mute_until = now + duration`; returns the
computed timestamp whether or not a row was updated. -/
def DB.set_mute (db : DB) (u : Nat) (duration : Nat) (now : Nat) : Nat × DB :=
  let mute_until := now + duration
  (mute_until,
   { db with users := aupdate db.users u (fun r => { r with mute_until := mute_until }) })

/-- `remove_mute`: `UPDATE users SET mute_until = 0`; success is
`rowcount > 0`. -/
def DB.remove_mute (db : DB) (u : Nat) : Bool × DB :=
  (ahas db.users u,
   { db with users := aupdate db.users u (fun r => { r with mute_until := 0 }) })

/-- `get_mute`: the stored `mute_until`, 0 when the row is absent. -/
def DB.get_mute (db : DB) (u : Nat) : Nat :=
  match alookup db.users u with
  | some r => r.mute_until
  | none => 0

/-- `ban_user`: `INSERT OR REPLACE INTO bans`; always returns `True`. -/
def DB.ban_user (db : DB) (u : Nat) (reason : String) (now : Nat) : Bool × DB :=
  (true, { db with bans := aupsert db.bans u ⟨reason, now⟩ })

/-- `get_ban`. -/
def DB.get_ban (db : DB) (u : Nat) : Option BanRow :=
  alookup db.bans u

/-- `set_role`: with a truthy `peer_id`, upsert into `conversation_roles`
(always succeeds); otherwise `UPDATE users SET role = ?` whose success is
`rowcount > 0`.  Python's `if peer_id:` is truthiness, so `some 0` falls
into the global branch. -/
def DB.set_role (db : DB) (u : Nat) (role : String) (peer : Option Nat) : Bool × DB :=
  match peer with
  | some p =>
    if p ≠ 0 then
      (true, { db with conv_roles := aupsert db.conv_roles (u, p) role })
    else
      (ahas db.users u,
       { db with users := aupdate db.users u (fun r => { r with role := role }) })
  | none =>
    (ahas db.users u,
     { db with users := aupdate db.users u (fun r => { r with role := role }) })

/-- `get_role`: conversation-scoped row first (only when `peer_id` is
truthy), then the global role, defaulting to `"user"` when no row exists. -/
def DB.get_role (db : DB) (u : Nat) (peer : Option Nat) : String :=
  let conv : Option String :=
    match peer with
    | some p => if p ≠ 0 then alookup db.conv_roles (u, p) else none
    | none => none
  match conv with
  | some r => r
  | none =>
    match alookup db.users u with
    | some r => r.role
    | none => "user"

/-! ## bot.py role model -/

/-- `ROLE_HIERARCHY` of bot.py, with `.get(role, 0)` semantics for unknown
role strings. -/
def roleRank (r : String) : Nat :=
  if r = "user" then 1
  else if r = "moderator" then 2
  else if r = "senior_moderator" then 3
  else if r = "admin" then 4
  else if r = "creator" then 5
  else 0

/-- Oracles for the VK remote API used by the modelled code paths:
`owner peer` is the member flagged `is_owner` by
`messages.getConversationMembers` (or `none` on API failure / no owner);
`resolveScreenName` is `users.get(user_ids=<screen_name>)`, with `none`
covering both an API exception and an empty result list. -/
structure VkEnv where
  owner : Nat → Option Nat
  resolveScreenName : String → Option Nat

/-- `VkBot.check_access`.  The outer test is `if peer_id is not None:`
(identity, not truthiness), the fall-back reads the user's global role and
returns `False` when the user has no row. -/
def check_access (db : DB) (u : Nat) (required_role : String) (peer : Option Nat) : Bool :=
  match peer with
  | some p => decide (roleRank (db.get_role u (some p)) ≥ roleRank required_role)
  | none =>
    match db.get_user u with
    | none => false
    | some row => decide (roleRank row.role ≥ roleRank required_role)

/-- `VkBot.has_rights`: conversation owner, or role-based access scoped to
this conversation. -/
def has_rights (env : VkEnv) (db : DB) (peer : Nat) (u : Nat) (required_role : String) : Bool :=
  decide (env.owner peer = some u) || check_access db u required_role (some peer)

/-- `VkBot.check_cooldown`: rejects when the user issued a command fewer
than `cooldown` seconds ago, and stamps the current time only on the
accepted path (the `return False` precedes the assignment).  Returns the
decision together with the updated `last_command_time` map. -/
def check_cooldown (cooldown : Int) (last : List (Nat × Int)) (u : Nat) (now : Int) :
    Bool × List (Nat × Int) :=
  match alookup last u with
  | some t =>
    if now - t < cooldown then (false, last)
    else (true, aupsert last u now)
  | none => (true, aupsert last u now)

/-- `VkBot.is_muted`. -/
def is_muted (db : DB) (u : Nat) (now : Nat) : Bool :=
  db.get_mute u > now

/-! ## utils.py parse_time -/

def digitVal (c : Char) : Nat := c.toNat - '0'.toNat

/-- Decimal digits to a number (the model of Python `int` on a digit
string). -/
def decToNat (l : List Char) : Nat :=
  l.foldl (fun a c => a * 10 + digitVal c) 0

/-- Python `str.isdigit` restricted to ASCII input: non-empty and all
digits. -/
def pyIsDigit (l : List Char) : Bool :=
  !l.isEmpty && l.all Char.isDigit

/-- ASCII `str.lower` on one character (the inputs the parser cares about
are ASCII). -/
def charLower (c : Char) : Char :=
  if 'A' ≤ c ∧ c ≤ 'Z' then Char.ofNat (c.toNat + 32) else c

/-- `str.strip()`: drop leading and trailing whitespace. -/
def pyStrip (l : List Char) : List Char :=
  ((l.dropWhile Char.isWhitespace).reverse.dropWhile Char.isWhitespace).reverse

/-- `parse_time` of utils.py: `^(\d+)([smhd])$` on the lowercased string.
A raised `ValueError` is modelled by `none`. -/
def parse_time (time_str : String) : Option Nat :=
  if time_str.toList.isEmpty then none
  else
    let l := time_str.toList.map charLower
    match l.getLast? with
    | none => none
    | some unit =>
      let digits := l.dropLast
      if pyIsDigit digits then
        let value := decToNat digits
        if unit = 's' then some value
        else if unit = 'm' then some (value * 60)
        else if unit = 'h' then some (value * 3600)
        else if unit = 'd' then some (value * 86400)
        else none
      else none

/-! ## bot.py extract_user_id_from_mention

The extractor is modelled character-list first.  The Python regexes it uses
are unrolled into explicit scans with the same match semantics (`re.match`
anchors at the start and does not anchor the end; `re.search` finds the
leftmost match; greedy `\d+` / `[^\]]+` runs are maximal runs followed by a
mandatory literal, which backtracking cannot shrink). -/

/-- Accumulator form of whitespace splitting (structural recursion so the
kernel can evaluate it): `cur` is the reversed token under construction,
`acc` the reversed list of finished tokens. -/
def pySplitWsAux (cur : List Char) (acc : List (List Char)) :
    List Char → List (List Char)
  | [] => if cur.isEmpty then acc.reverse else (cur.reverse :: acc).reverse
  | c :: rest =>
    if c.isWhitespace then
      if cur.isEmpty then pySplitWsAux [] acc rest
      else pySplitWsAux [] (cur.reverse :: acc) rest
    else pySplitWsAux (c :: cur) acc rest

/-- `mention.split()`: split on whitespace runs, dropping empty tokens. -/
def pySplitWs (l : List Char) : List (List Char) :=
  pySplitWsAux [] [] l

/-- Python `str.find(sub)`: index of the first occurrence, `none` for -1. -/
def findSub (hay needle : List Char) : Option Nat :=
  (List.range (hay.length + 1)).find? (fun i => needle.isPrefixOf (hay.drop i))

/-- Strip an optional `http://` / `https://` scheme (the `(?:https?://)?`
group; for these patterns the greedy optional group and plain
strip-if-present agree because no suffix of the scheme can begin the host
part). -/
def stripScheme (l : List Char) : List Char :=
  if "https://".toList.isPrefixOf l then l.drop 8
  else if "http://".toList.isPrefixOf l then l.drop 7
  else l

/-- Strip an optional `www.` (the `(?:www\.)?` group). -/
def stripWww (l : List Char) : List Char :=
  if "www.".toList.isPrefixOf l then l.drop 4 else l

/-- `re.match` for `(?:https?://)?(?:www\.)?<host>(\d+)` where `host` is
`vk.com/id` or `vk.me/id`: after stripping the optional pieces the host
literal must follow, then at least one digit; the captured group is the
maximal digit run and the rest of the string is unconstrained. -/
def matchVkIdUrl (host : List Char) (l : List Char) : Option Nat :=
  let r := stripWww (stripScheme l)
  if host.isPrefixOf r then
    let ds := (r.drop host.length).takeWhile Char.isDigit
    if ds.isEmpty then none else some (decToNat ds)
  else none

/-- Python `str.split(sep)` for a one-character separator (always returns
at least one piece; a trailing separator yields a trailing empty piece). -/
def splitOnChar (sep : Char) : List Char → List (List Char)
  | [] => [[]]
  | c :: rest =>
    if c = sep then [] :: splitOnChar sep rest
    else
      match splitOnChar sep rest with
      | [] => [[c]]
      | t :: ts => (c :: t) :: ts

/-- `first_word.split("/")[-1]` (used for the vanity-handle URL branch). -/
def lastSlashComponent (l : List Char) : List Char :=
  match (splitOnChar '/' l).getLast? with
  | some t => t
  | none => l

/-- Attempt the pattern `\[id(\d+)\|[^\]]+\]` anchored at the head of `l`. -/
def matchBracketAt (l : List Char) : Option Nat :=
  if "[id".toList.isPrefixOf l then
    let rest := l.drop 3
    let ds := rest.takeWhile Char.isDigit
    if ds.isEmpty then none
    else
      match rest.drop ds.length with
      | '|' :: tail =>
        let body := tail.takeWhile (fun c => c ≠ ']')
        if body.isEmpty then none
        else
          match tail.drop body.length with
          | ']' :: _ => some (decToNat ds)
          | _ => none
      | _ => none
  else none

/-- `re.search(r'\[id(\d+)\|[^\]]+\]', text)`: leftmost match. -/
def searchBracket : List Char → Option Nat
  | [] => none
  | c :: rest =>
    match matchBracketAt (c :: rest) with
    | some n => some n
    | none => searchBracket rest

/-- Word characters for `\w` (the inputs of interest are ASCII). -/
def isWordChar (c : Char) : Bool := c.isAlphanum || c = '_'

/-- `re.search(r'@(\w+)', text)`: leftmost `@` followed by at least one
word character; the capture is the maximal word-character run. -/
def searchAtHandle : List Char → Option (List Char)
  | [] => none
  | c :: rest =>
    if c = '@' then
      let w := rest.takeWhile isWordChar
      if w.isEmpty then searchAtHandle rest else some w
    else searchAtHandle rest

/-- The `[id...|...]` branch applied to the first word: requires `[` at the
start and both `|` and `]` present, then slices between `find("id") + 2`
and `find("|")` exactly as the source does (a failed `find` is -1, making
the `start_idx > 1` guard fail). -/
def bracketFirstWord (fw : List Char) : Option Nat :=
  if "[".toList.isPrefixOf fw && fw.contains '|' && fw.contains ']' then
    match findSub fw "id".toList, findSub fw "|".toList with
    | some i, some j =>
      let s := i + 2
      if s > 1 && decide (s < j) then
        let sub := (fw.drop s).take (j - s)
        if pyIsDigit sub then some (decToNat sub) else none
      else none
    | _, _ => none
  else none

/-- The `for pattern in vk_url_patterns` loop.  Patterns 1 and 2, when they
match, always return (their captured group is a digit run); pattern 3
(`vk\.com/.*`) falls back to resolving the last path component as a vanity
handle, and any lookup failure is swallowed. -/
def urlBranch (env : VkEnv) (fw : List Char) : Option Nat :=
  match matchVkIdUrl "vk.com/id".toList fw with
  | some n => some n
  | none =>
    match matchVkIdUrl "vk.me/id".toList fw with
    | some n => some n
    | none =>
      if "vk.com/".toList.isPrefixOf (stripWww (stripScheme fw)) then
        let sn := lastSlashComponent fw
        if sn.isEmpty then none else env.resolveScreenName (String.mk sn)
      else none

/-- `VkBot.extract_user_id_from_mention` on a character list.  The whole
body is wrapped in `try/except → None` in the source; the only modelled
in-body exception is the `IndexError` of `mention.split()[0]` on an
all-whitespace input, which the wrapper turns into `none` as well. -/
def extractCore (env : VkEnv) (mention : List Char) : Option Nat :=
  let fw? : Option (List Char) :=
    if mention.contains ' ' then (pySplitWs mention).head? else some mention
  match fw? with
  | none => none
  | some fw =>
    if pyIsDigit fw then some (decToNat fw)
    else
      match bracketFirstWord fw with
      | some n => some n
      | none =>
        match urlBranch env fw with
        | some n => some n
        | none =>
          let atRes : Option Nat :=
            if "@".toList.isPrefixOf fw then
              env.resolveScreenName (String.mk (fw.drop 1))
            else none
          match atRes with
          | some n => some n
          | none =>
            if mention.contains ' ' then
              match searchBracket mention with
              | some n => some n
              | none =>
                match searchAtHandle mention with
                | some h => env.resolveScreenName (String.mk h)
                | none => none
            else none

/-- `VkBot.extract_user_id_from_mention`. -/
def extract_user_id_from_mention (env : VkEnv) (mention : String) : Option Nat :=
  extractCore env mention.toList

/-! ## commands.py handlers

Handlers are modelled as state transformers that also return the ordered
list of externally visible effects.  Chat replies are identified by a
`Msg` constructor per distinct f-string of the source (the VK profile-name
lookups only affect display text, which the constructors abstract over);
an `Effect.audit` is the invocation of `VkBot.send_log_message`, whose own
failures are swallowed by the source and do not alter control flow. -/

/-- Chat replies sent by the modelled handlers, one constructor per
distinct message template in the source. -/
inductive Msg
  /-- "Укажите пользователя (ID, упоминание или ссылку) и причину предупреждения." -/
  | warnUsage
  /-- "Укажите пользователя (ID, упоминание или ссылку) и причину бана." -/
  | banUsage
  /-- "Укажите пользователя (ID, упоминание или ссылку)." -/
  | removeAdminUsage
  /-- "Не удалось определить пользователя. ..." -/
  | cantResolveUser
  /-- "Вы не можете выдать предупреждение сотруднику." -/
  | staffProtectWarn
  /-- "Вы не можете забанить сотрудника [id…|…]." -/
  | staffProtectBan (target : Nat)
  /-- "Выдано предупреждение …  Предупреждения: n/3" -/
  | warnIssued (target : Nat) (admin : Nat) (reason : String) (count : Nat)
  /-- "Пользователь […] автоматически забанен …" -/
  | autoBanned (target : Nat) (count : Nat)
  /-- "Пользователь заблокирован …" -/
  | banIssued (target : Nat) (admin : Nat) (reason : String)
  /-- "Не удалось забанить пользователя …" -/
  | banFailed (target : Nat)
  /-- "Пользователь [id…] не является администратором в этой беседе." -/
  | notAdminHere (target : Nat)
  /-- "[id…|…] больше не является администратором в этой беседе." -/
  | adminRemoved (target : Nat)
  /-- "Не удалось снять администратора с пользователя [id…]." -/
  | adminRemoveFailed (target : Nat)
deriving DecidableEq, Repr

/-- Externally visible side effects, in program order. -/
inductive Effect
  /-- `VkBot.send_message` to the conversation. -/
  | sendMessage (peer : Nat) (msg : Msg)
  /-- `VkBot.send_log_message` (the audit entry to the logging chat). -/
  | audit (action : String) (admin : Nat) (target : Option Nat)
      (peer : Option Nat) (details : Option String)
  /-- `db.ban_user` write (recorded in the trace to expose its position
  relative to the kick attempt). -/
  | dbBan (target : Nat) (reason : String)
  /-- `VkBot.kick_user` attempt. -/
  | kick (peer : Nat) (target : Nat)
deriving DecidableEq, Repr

/-- `split(' ', 1)`: the part before the first space and, when a space
exists, everything after it. -/
def splitFirstSpace (l : List Char) : List Char × Option (List Char) :=
  match l.findIdx? (fun c => c = ' ') with
  | none => (l, none)
  | some i => (l.take i, some (l.drop (i + 1)))

/-- The auto-generated reason stored by the warn auto-ban:
`f"Автобан: превышение лимита предупреждений ({warn_count})"`. -/
def autoBanReason (warn_count : Nat) : String :=
  "Автобан: превышение лимита предупреждений (" ++ toString warn_count ++ ")"

/-- `CommandRegistry.cmd_warn`.  `none` models the (unreachable after
`add_user`) uncaught exception of `db.add_warn` on a missing user row. -/
def cmd_warn (env : VkEnv) (db : DB) (peer : Nat) (user : Nat) (args : String)
    (now : Nat) : Option (DB × List Effect) :=
  if args.toList.isEmpty || !(args.toList.contains ' ') then
    some (db, [.sendMessage peer .warnUsage])
  else
    let p := splitFirstSpace (pyStrip args.toList)
    let reason := (p.2.map String.mk).getD "Не указана"
    match extractCore env p.1 with
    | none => some (db, [.sendMessage peer .cantResolveUser])
    | some target =>
      if check_access db target "moderator" none &&
          !(check_access db user "admin" none) then
        some (db, [.sendMessage peer .staffProtectWarn])
      else
        let db1 := db.add_user target now
        match db1.add_warn target reason now with
        | none => none
        | some (warn_count, db2) =>
          let base : List Effect :=
            [.sendMessage peer (.warnIssued target user reason warn_count),
             .audit "warn" user (some target) (some peer)
               (some ("Причина: " ++ reason ++ " (предупреждение " ++
                 toString warn_count ++ "/3)"))]
          if warn_count ≥ 3 then
            let b := db2.ban_user target (autoBanReason warn_count) now
            some (b.2, base ++
              [.dbBan target (autoBanReason warn_count),
               .sendMessage peer (.autoBanned target warn_count),
               .kick peer target,
               .audit "ban" user (some target) (some peer)
                 (some ("Автобан: превышение лимита предупреждений (" ++
                   toString warn_count ++ "/3)"))])
          else
            some (db2, base)

/-- `CommandRegistry.cmd_ban`.  Staff protection, then `add_user`,
`ban_user` (always succeeds), chat reply, audit entry, and finally the
kick attempt — in that order. -/
def cmd_ban (env : VkEnv) (db : DB) (peer : Nat) (user : Nat) (args : String)
    (now : Nat) : DB × List Effect :=
  if args.toList.isEmpty || !(args.toList.contains ' ') then
    (db, [.sendMessage peer .banUsage])
  else
    let p := splitFirstSpace (pyStrip args.toList)
    let reason := (p.2.map String.mk).getD "Не указана"
    match extractCore env p.1 with
    | none => (db, [.sendMessage peer .cantResolveUser])
    | some target =>
      if check_access db target "moderator" none &&
          !(check_access db user "admin" none) then
        (db, [.sendMessage peer (.staffProtectBan target)])
      else
        let db1 := db.add_user target now
        let b := db1.ban_user target reason now
        if b.1 then
          (b.2, [.dbBan target reason,
                 .sendMessage peer (.banIssued target user reason),
                 .audit "ban" user (some target) (some peer)
                   (some ("Причина: " ++ reason)),
                 .kick peer target])
        else
          (b.2, [.sendMessage peer (.banFailed target)])

/-- `CommandRegistry.cmd_removeadmin`: try the first token, then the whole
argument string, as a mention; require the conversation-resolved role to
be literally `"admin"`; on success write the conversation role `"user"`. -/
def cmd_removeadmin (env : VkEnv) (db : DB) (peer : Nat) (user : Nat)
    (args : String) : DB × List Effect :=
  if args.toList.isEmpty then
    (db, [.sendMessage peer .removeAdminUsage])
  else
    let p := splitFirstSpace (pyStrip args.toList)
    let target? :=
      match extractCore env p.1 with
      | some t => some t
      | none => extractCore env args.toList
    match target? with
    | none => (db, [.sendMessage peer .cantResolveUser])
    | some target =>
      if db.get_role target (some peer) ≠ "admin" then
        (db, [.sendMessage peer (.notAdminHere target)])
      else
        let r := db.set_role target "user" (some peer)
        if r.1 then
          (r.2, [.sendMessage peer (.adminRemoved target),
                 .audit "remove_role" user (some target) (some peer)
                   (some "Снят с должности администратора")])
        else
          (r.2, [.sendMessage peer (.adminRemoveFailed target)])

/-- The non-command branch of `VkBot.handle_message` restricted to its
state-relevant steps: `add_user`, `update_message_count`, then the mute
check (`is_muted` and the `check_access(user, "moderator")` bypass, with
the redundant `time_left > 0` re-check).  The returned flag is whether a
deletion of the incoming message is attempted. -/
def handle_message_noncommand (db : DB) (u : Nat) (now : Nat) : DB × Bool :=
  let db1 := db.add_user u now
  let db2 := db1.update_message_count u now
  if is_muted db2 u now && !(check_access db2 u "moderator" none) then
    if (db2.get_mute u : Int) - (now : Int) > 0 then (db2, true) else (db2, false)
  else (db2, false)

/-! ## Iterated warn/unwarn (for the counter algebra) -/

/-- Run `add_warn` once per `(reason, timestamp)` pair; `none` as soon as
one call raises. -/
def iterWarn (u : Nat) : List (String × Nat) → DB → Option DB
  | [], db => some db
  | rt :: rest, db =>
    match db.add_warn u rt.1 rt.2 with
    | none => none
    | some st => iterWarn u rest st.2

/-- Run `remove_warn` `m` times. -/
def iterUnwarn (u : Nat) : Nat → DB → DB
  | 0, db => db
  | m + 1, db => iterUnwarn u m (db.remove_warn u).2

/-! ## Spec-side definitions (for the refinement claims) -/

/-- Modelled from the spec: `effective_role(user, conversation) =
conversation_role_override if present else global_role` (the global role of
a user with no row being the schema default `"user"`). -/
def specEffectiveRole (db : DB) (u : Nat) (conv : Nat) : String :=
  match alookup db.conv_roles (u, conv) with
  | some r => r
  | none =>
    match alookup db.users u with
    | some row => row.role
    | none => "user"

/-- Modelled from the spec: `has_minimum(user, conversation, required) ⇔
rank(effective_role) ≥ rank(required) OR user == conversation_owner`. -/
def specHasMinimum (env : VkEnv) (db : DB) (u : Nat) (conv : Nat)
    (required : String) : Prop :=
  roleRank (specEffectiveRole db u conv) ≥ roleRank required ∨
    env.owner conv = some u

/-- A VK environment whose every remote lookup fails (used by concrete
witnesses). -/
def noApiEnv : VkEnv := ⟨fun _ => none, fun _ => none⟩

/-- Invariant tying a user's stored warning counter to their `warns` rows:
the row exists with counter `k`, the user has exactly `k` entries, their
ids are pairwise distinct, and all ids are below the AUTOINCREMENT
counter.  It holds for any state reachable from a fresh user and is
preserved by `add_warn` / `remove_warn`. -/
def WarnInv (db : DB) (u k : Nat) : Prop :=
  (∃ row : UserRow, alookup db.users u = some row ∧ row.warns = k) ∧
  (warnEntries db u).length = k ∧
  ((warnEntries db u).map (fun w => w.id)).Nodup ∧
  ∀ w ∈ warnEntries db u, w.id < db.next_warn_id

/-! Concrete fixtures used by the witness theorems. -/

/-- An empty database. -/
def emptyDB : DB :=
  { users := [], warns := [], next_warn_id := 0, bans := [], conv_roles := [] }

/-- User 20 has two warnings on record and counter 2. -/
def dbTwoWarns : DB :=
  { users := [(20, { role := "user", warns := 2 })],
    warns := [⟨0, 20, "a", 1⟩, ⟨1, 20, "b", 2⟩],
    next_warn_id := 2, bans := [], conv_roles := [] }

/-- Users 10 and 20 are both global moderators. -/
def dbTwoMods : DB :=
  { users := [(10, { role := "moderator" }), (20, { role := "moderator" })],
    warns := [], next_warn_id := 0, bans := [], conv_roles := [] }

/-- User 10 is a global admin, user 20 a global moderator. -/
def dbAdminMod : DB :=
  { users := [(10, { role := "admin" }), (20, { role := "moderator" })],
    warns := [], next_warn_id := 0, bans := [], conv_roles := [] }

/-- User 20 is a global creator; user 30 holds an `admin` override in
conversation 555. -/
def dbConvAdmin : DB :=
  { users := [(20, { role := "creator" })],
    warns := [], next_warn_id := 0, bans := [],
    conv_roles := [((30, 555), "admin")] }

/-- A single plain user with id 5. -/
def dbOneUser : DB :=
  { users := [(5, { role := "user" })],
    warns := [], next_warn_id := 0, bans := [], conv_roles := [] }

/-- User 10 is a global moderator holding a `"user"` override in
conversation 555. -/
def dbOverride : DB :=
  { users := [(10, { role := "moderator" })],
    warns := [], next_warn_id := 0, bans := [],
    conv_roles := [((10, 555), "user")] }

/-! ## Association-list lemmas -/

theorem alookup_aupsert_self {α β : Type} [DecidableEq α]
    (l : List (α × β)) (k : α) (v : β) :
    alookup (aupsert l k v) k = some v := by
  induction l with
  | nil => simp [aupsert, alookup]
  | cons e rest ih =>
    by_cases h : e.1 = k
    · simp [aupsert, alookup, h]
    · simp [aupsert, alookup, h, ih]

theorem alookup_aupsert_ne {α β : Type} [DecidableEq α]
    (l : List (α × β)) (k k' : α) (v : β) (h : k' ≠ k) :
    alookup (aupsert l k v) k' = alookup l k' := by
  induction l with
  | nil => simp [aupsert, alookup, Ne.symm h]
  | cons e rest ih =>
    by_cases he : e.1 = k
    · simp [aupsert, alookup, he, Ne.symm h]
    · simp only [aupsert, if_neg he]
      by_cases he' : e.1 = k'
      · simp [alookup, he']
      · simp [alookup, he', ih]

theorem alookup_aupdate_self {α β : Type} [DecidableEq α]
    (l : List (α × β)) (k : α) (f : β → β) :
    alookup (aupdate l k f) k = (alookup l k).map f := by
  induction l with
  | nil => simp [aupdate, alookup]
  | cons e rest ih =>
    by_cases h : e.1 = k
    · simp [aupdate, alookup, h]
    · simp [aupdate, alookup, h, ih]

theorem alookup_aupdate_ne {α β : Type} [DecidableEq α]
    (l : List (α × β)) (k k' : α) (f : β → β) (h : k' ≠ k) :
    alookup (aupdate l k f) k' = alookup l k' := by
  induction l with
  | nil => simp [aupdate, alookup]
  | cons e rest ih =>
    by_cases he : e.1 = k
    · simp [aupdate, alookup, he, Ne.symm h, ih]
    · by_cases he' : e.1 = k'
      · simp [aupdate, alookup, he, he', h, ih]
      · simp [aupdate, alookup, he, he', ih]

theorem ahas_eq_isSome {α β : Type} [DecidableEq α] (l : List (α × β)) (k : α) :
    ahas l k = (alookup l k).isSome := by
  induction l with
  | nil => simp [ahas, alookup]
  | cons e rest ih =>
    by_cases h : e.1 = k
    · simp [ahas, alookup, h]
    · simp [ahas, alookup, h, ih]

theorem add_user_of_present (db : DB) (u : Nat) (now : Nat) (row : UserRow)
    (h : alookup db.users u = some row) :
    db.add_user u now = db := by
  simp [DB.add_user, ahas_eq_isSome, h]

/-! ## Claim C8 -/

/-- Claim C8: duration parsing maps `"30m"` to 1800, `"2h"` to 7200 and
`"1d"` to 86400, and rejects `"abc"`, `"5"` (a number without a unit) and
the empty string (`parse_time` raising `ValueError` is `none`). -/
theorem claim_C8_duration_parsing :
    parse_time "30m" = some 1800 ∧
    parse_time "2h" = some 7200 ∧
    parse_time "1d" = some 86400 ∧
    parse_time "abc" = none ∧
    parse_time "5" = none ∧
    parse_time "" = none := by
  exact ⟨by decide, by decide, by decide, by decide, by decide, by decide⟩

/-! ## Claim C2 -/

/-- Claim C2 counterexample: with cooldown 3 and a previous stamp at time
0, a rejected attempt at time 2 is refused but leaves the stored
timestamp at 0 — it is not updated to the rejected attempt's time 2, so a
cooldown check does not stamp the invoker's last-command time regardless
of outcome. -/
theorem claim_C2_counterexample :
    (check_cooldown 3 [(7, 0)] 7 2).1 = false ∧
    alookup (check_cooldown 3 [(7, 0)] 7 2).2 7 = some 0 ∧
    ¬ alookup (check_cooldown 3 [(7, 0)] 7 2).2 7 = some 2 := by
  decide

/-- Claim C2 (amended): a cooldown check updates the invoker's
last-command timestamp only when it accepts; a rejected attempt leaves the
whole cooldown map unchanged, so the gate enforces a minimum interval
since the last accepted command, not since the last attempt. -/
theorem claim_C2_cooldown_stamps_only_on_accept
    (cooldown : Int) (last : List (Nat × Int)) (u : Nat) (now : Int) :
    ((check_cooldown cooldown last u now).1 = false →
      (check_cooldown cooldown last u now).2 = last) ∧
    ((check_cooldown cooldown last u now).1 = true →
      alookup (check_cooldown cooldown last u now).2 u = some now) := by
  unfold check_cooldown
  cases h : alookup last u with
  | none => simp [alookup_aupsert_self]
  | some t =>
    by_cases hc : now - t < cooldown
    · simp [hc]
    · simp [hc, alookup_aupsert_self]

/-- Claim C2 witness: the amended theorem applied to the counterexample
state: the rejected attempt at time 2 leaves the map untouched. -/
theorem claim_C2_witness :
    (check_cooldown 3 [(7, 0)] 7 2).2 = [(7, 0)] :=
  (claim_C2_cooldown_stamps_only_on_accept 3 [(7, 0)] 7 2).1 (by decide)

/-! ## Claim C7 -/

/-- Claim C7: mention resolution maps `"123456"`, `"[id123456|Ivan
Petrov]"` and `"https://vk.com/id123456"` to 123456 for every profile
oracle, and maps `"@nonexistent_handle"` to `none` whenever the profile
lookup for that handle fails — lookup failures collapse to "not found"
(the function is total into `Option`, never propagating an exception). -/
theorem claim_C7_mention_resolution :
    (∀ env : VkEnv, extract_user_id_from_mention env "123456" = some 123456) ∧
    (∀ env : VkEnv,
      extract_user_id_from_mention env "[id123456|Ivan Petrov]" = some 123456) ∧
    (∀ env : VkEnv,
      extract_user_id_from_mention env "https://vk.com/id123456" = some 123456) ∧
    (∀ env : VkEnv, env.resolveScreenName "nonexistent_handle" = none →
      extract_user_id_from_mention env "@nonexistent_handle" = none) := by
  refine ⟨fun env => rfl, fun env => rfl, fun env => rfl, fun env h => ?_⟩
  have hr : extract_user_id_from_mention env "@nonexistent_handle" =
      (match env.resolveScreenName "nonexistent_handle" with
       | some n => some n
       | none => none) := rfl
  rw [hr, h]

/-- Claim C7 witness: the handle branch evaluated against the concrete
always-failing environment. -/
theorem claim_C7_witness :
    extract_user_id_from_mention noApiEnv "@nonexistent_handle" = none :=
  claim_C7_mention_resolution.2.2.2 noApiEnv rfl

/-! ## Claim C10 -/

/-- Claim C10: for a user with no `users` row the access check is
asymmetric in the conversation argument — with a conversation id (and no
override row) the user is resolved to role `"user"`, so a check against
required role `"user"` succeeds, while without a conversation id
`check_access` returns `false` for every required role. -/
theorem claim_C10_missing_user_asymmetry
    (db : DB) (u : Nat) (peer : Nat) (required : String)
    (hrow : alookup db.users u = none) :
    (peer ≠ 0 → alookup db.conv_roles (u, peer) = none →
      db.get_role u (some peer) = "user" ∧
      check_access db u "user" (some peer) = true) ∧
    check_access db u required none = false := by
  constructor
  · intro hp hconv
    have hrole : db.get_role u (some peer) = "user" := by
      simp [DB.get_role, hp, hconv, hrow]
    refine ⟨hrole, ?_⟩
    rw [check_access, hrole]
    decide
  · simp [check_access, DB.get_user, hrow]

/-- Claim C10 witness: the empty database, user 7, conversation 555. -/
theorem claim_C10_witness :
    emptyDB.get_role 7 (some 555) = "user" ∧
    check_access emptyDB 7 "user" (some 555) = true ∧
    check_access emptyDB 7 "user" none = false := by
  have h := claim_C10_missing_user_asymmetry emptyDB 7 555 "user" (by decide)
  exact ⟨(h.1 (by decide) (by decide)).1, (h.1 (by decide) (by decide)).2, h.2⟩

/-! ## Claim C1 -/

theorem get_role_some_eq_spec (db : DB) (u conv : Nat) (hconv : conv ≠ 0) :
    db.get_role u (some conv) = specEffectiveRole db u conv := by
  simp [DB.get_role, specEffectiveRole, hconv]

/-- Claim C1: for every user, conversation (VK peer ids are nonzero) and
required role, `has_rights` grants access iff
`rank(effective_role) ≥ rank(required)` or the user is the conversation
owner, where the effective role is the conversation override when stored
and the global role otherwise; and setting a conversation override
shadows the global role only for that conversation's checks (resolution
for every other (user, conversation) pair is unchanged). -/
theorem claim_C1_access_model
    (env : VkEnv) (db : DB) (u conv : Nat) (required : String) (hconv : conv ≠ 0) :
    (has_rights env db conv u required = true ↔
      specHasMinimum env db u conv required) ∧
    (∀ r : String,
      DB.get_role (db.set_role u r (some conv)).2 u (some conv) = r ∧
      (∀ u' c' : Nat, c' ≠ 0 → (u', c') ≠ (u, conv) →
        DB.get_role (db.set_role u r (some conv)).2 u' (some c') =
          db.get_role u' (some c'))) := by
  constructor
  · rw [has_rights, check_access, get_role_some_eq_spec db u conv hconv]
    simp only [specHasMinimum, Bool.or_eq_true, decide_eq_true_eq]
    exact Iff.intro (fun h => h.elim Or.inr Or.inl) (fun h => h.elim Or.inr Or.inl)
  · intro r
    have hset : (db.set_role u r (some conv)).2 =
        { db with conv_roles := aupsert db.conv_roles (u, conv) r } := by
      simp [DB.set_role, hconv]
    refine ⟨?_, ?_⟩
    · rw [hset]
      simp [DB.get_role, hconv, alookup_aupsert_self]
    · intro u' c' hc' hne
      rw [hset]
      simp [DB.get_role, hc',
        alookup_aupsert_ne db.conv_roles (u, conv) (u', c') r hne]

/-- Claim C1 witness: a moderator with a `"user"` override in conversation
555 still passes a `"user"`-level check there, and re-setting the override
to `"admin"` resolves to `"admin"` in that conversation. -/
theorem claim_C1_witness :
    has_rights noApiEnv dbOverride 555 10 "user" = true ∧
    DB.get_role (dbOverride.set_role 10 "admin" (some 555)).2 10 (some 555) = "admin" := by
  have h := claim_C1_access_model noApiEnv dbOverride 10 555 "user" (by decide)
  exact ⟨h.1.mpr (Or.inl (by decide)), (h.2 "admin").1⟩

/-! ## Claim C9 -/

/-- Claim C9: `cmd_removeadmin` clears the target's conversation-scoped
role (writes the override `"user"`) only when the conversation-resolved
role is literally `"admin"`; for any other resolved role — including
`"creator"` — it replies with a rejection message and changes no stored
state. -/
theorem claim_C9_removeadmin_literal_match
    (env : VkEnv) (db : DB) (peer user target : Nat) (args : String)
    (hne : args.toList.isEmpty = false)
    (hres : extractCore env (splitFirstSpace (pyStrip args.toList)).1 = some target) :
    (db.get_role target (some peer) ≠ "admin" →
      cmd_removeadmin env db peer user args =
        (db, [.sendMessage peer (.notAdminHere target)])) ∧
    (db.get_role target (some peer) = "admin" → peer ≠ 0 →
      cmd_removeadmin env db peer user args =
        ({ db with conv_roles := aupsert db.conv_roles (target, peer) "user" },
         [.sendMessage peer (.adminRemoved target),
          .audit "remove_role" user (some target) (some peer)
            (some "Снят с должности администратора")]) ∧
      DB.get_role { db with conv_roles := aupsert db.conv_roles (target, peer) "user" }
          target (some peer) = "user") := by
  have hne2 : ¬ args.toList = [] := by
    intro hh; rw [hh] at hne; simp at hne
  simp only [String.toList] at hres hne2
  constructor
  · intro hrole
    simp [cmd_removeadmin, hne2, hres, hrole]
  · intro hrole hp
    refine ⟨?_, ?_⟩
    · simp [cmd_removeadmin, hne2, hres, hrole, DB.set_role, hp]
    · simp [DB.get_role, hp, alookup_aupsert_self]

/-- Claim C9 witness: in a conversation where user 20 resolves to
`"creator"` the command rejects and leaves the state alone, while user 30
(stored override `"admin"`) is demoted to `"user"`. -/
theorem claim_C9_witness :
    cmd_removeadmin noApiEnv dbConvAdmin 555 10 "20" =
      (dbConvAdmin, [.sendMessage 555 (.notAdminHere 20)]) ∧
    DB.get_role (cmd_removeadmin noApiEnv dbConvAdmin 555 10 "30").1 30 (some 555) = "user" := by
  have h1 := (claim_C9_removeadmin_literal_match noApiEnv dbConvAdmin 555 10 20 "20"
    (by decide) (by decide)).1 (by decide)
  have h2 := (claim_C9_removeadmin_literal_match noApiEnv dbConvAdmin 555 10 30 "30"
    (by decide) (by decide)).2 (by decide) (by decide)
  exact ⟨h1, by rw [h2.1]; exact h2.2⟩

/-! ## Claim C6 -/

/-- Claim C6: for a stored user `u`, `set_mute(u, d)` at time `now`
returns `now + d` and an immediate `get_mute(u)` reads back `now + d`
(hence at least `now + d - eps` for any `eps`); after `remove_mute(u)`,
`get_mute(u)` is 0 and an arriving non-command message from `u` is no
longer deleted. -/
theorem claim_C6_mute_roundtrip
    (db : DB) (u d now now2 eps : Nat) (row : UserRow)
    (hrow : alookup db.users u = some row) :
    (db.set_mute u d now).1 = now + d ∧
    DB.get_mute (db.set_mute u d now).2 u = now + d ∧
    now + d - eps ≤ DB.get_mute (db.set_mute u d now).2 u ∧
    DB.get_mute ((db.set_mute u d now).2.remove_mute u).2 u = 0 ∧
    (handle_message_noncommand ((db.set_mute u d now).2.remove_mute u).2 u now2).2 = false := by
  have hmute1 : DB.get_mute (db.set_mute u d now).2 u = now + d := by
    simp [DB.set_mute, DB.get_mute, alookup_aupdate_self, hrow]
  have hl : alookup ((db.set_mute u d now).2.remove_mute u).2.users u =
      some { row with mute_until := 0 } := by
    simp [DB.set_mute, DB.remove_mute, alookup_aupdate_self, hrow]
  have hhas : ahas ((db.set_mute u d now).2.remove_mute u).2.users u = true := by
    rw [ahas_eq_isSome, hl]; rfl
  have hmz : DB.get_mute ((db.set_mute u d now).2.remove_mute u).2 u = 0 := by
    simp [DB.get_mute, hl]
  have hmz2 : DB.get_mute
      (DB.update_message_count ((db.set_mute u d now).2.remove_mute u).2 u now2) u = 0 := by
    simp [DB.update_message_count, hhas, DB.get_mute, alookup_aupdate_self, hl]
  refine ⟨rfl, hmute1, ?_, hmz, ?_⟩
  · rw [hmute1]; exact Nat.sub_le _ _
  · rw [handle_message_noncommand, add_user_of_present _ _ _ _ hl]
    simp [is_muted, hmz2]

/-- Claim C6 witness: user 5 muted for 60 seconds at time 100, unmuted,
message at time 120 not deleted. -/
theorem claim_C6_witness :
    DB.get_mute (dbOneUser.set_mute 5 60 100).2 5 = 160 ∧
    DB.get_mute ((dbOneUser.set_mute 5 60 100).2.remove_mute 5).2 5 = 0 ∧
    (handle_message_noncommand ((dbOneUser.set_mute 5 60 100).2.remove_mute 5).2 5 120).2 = false := by
  have h := claim_C6_mute_roundtrip dbOneUser 5 60 100 120 3 { role := "user" } (by decide)
  exact ⟨h.2.1, h.2.2.2.1, h.2.2.2.2⟩

/-! ## Claim C4 -/

/-- Claim C4: when a well-formed `/ban` invocation resolves to a target
holding at least `moderator` (by global role), an actor below `admin` is
rejected with the staff-protection message and the database is returned
unchanged — no ban record, no audit entry, no kick; an actor holding
`admin` or above proceeds to the full ban sequence. -/
theorem claim_C4_ban_staff_protection
    (env : VkEnv) (db : DB) (peer user target now : Nat) (args : String)
    (ident restl : List Char)
    (hne : args.toList.isEmpty = false)
    (hsp : args.toList.contains ' ' = true)
    (hsplit : splitFirstSpace (pyStrip args.toList) = (ident, some restl))
    (hres : extractCore env ident = some target)
    (hstaff : check_access db target "moderator" none = true) :
    (check_access db user "admin" none = false →
      cmd_ban env db peer user args now =
        (db, [.sendMessage peer (.staffProtectBan target)])) ∧
    (check_access db user "admin" none = true →
      cmd_ban env db peer user args now =
        (((db.add_user target now).ban_user target (String.mk restl) now).2,
         [.dbBan target (String.mk restl),
          .sendMessage peer (.banIssued target user (String.mk restl)),
          .audit "ban" user (some target) (some peer)
            (some ("Причина: " ++ String.mk restl)),
          .kick peer target])) := by
  simp only [String.toList] at hne hsp hsplit hres
  have hsp2 : ' ' ∈ args.data := by simpa using hsp
  constructor
  · intro hadmin
    simp [cmd_ban, hne, hsp2, hsplit, hres, hstaff, hadmin]
  · intro hadmin
    simp [cmd_ban, hne, hsp2, hsplit, hres, hstaff, hadmin, DB.ban_user]

/-- Claim C4 witness: moderator 10 cannot ban moderator 20 (nothing
persisted), while admin 10 can. -/
theorem claim_C4_witness :
    cmd_ban noApiEnv dbTwoMods 3000000001 10 "20 reason" 100 =
      (dbTwoMods, [.sendMessage 3000000001 (.staffProtectBan 20)]) ∧
    cmd_ban noApiEnv dbAdminMod 3000000001 10 "20 reason" 100 =
      (((dbAdminMod.add_user 20 100).ban_user 20 "reason" 100).2,
       [.dbBan 20 "reason",
        .sendMessage 3000000001 (.banIssued 20 10 "reason"),
        .audit "ban" 10 (some 20) (some 3000000001) (some "Причина: reason"),
        .kick 3000000001 20]) := by
  have h1 := (claim_C4_ban_staff_protection noApiEnv dbTwoMods 3000000001 10 20 100
    "20 reason" "20".toList "reason".toList
    (by decide) (by decide) (by decide) (by decide) (by decide)).1 (by decide)
  have h2 := (claim_C4_ban_staff_protection noApiEnv dbAdminMod 3000000001 10 20 100
    "20 reason" "20".toList "reason".toList
    (by decide) (by decide) (by decide) (by decide) (by decide)).2 (by decide)
  exact ⟨h1, h2⟩

/-! ## Claim C3 -/

/-- Claim C3: a well-formed `/warn` on an unprotected target whose stored
counter is 2 yields counter 3 and triggers the auto-ban: the trace contains
the warn reply, a `"warn"` audit entry, then the ban record write (with the
auto-generated reason), the auto-ban reply, the kick attempt and a separate
`"ban"` audit entry — ban record before kick, two distinct audit entries —
and the final state holds the ban row for the target. -/
theorem claim_C3_third_warn_autoban
    (env : VkEnv) (db : DB) (peer user target now : Nat) (args : String)
    (ident restl : List Char) (row : UserRow)
    (hne : args.toList.isEmpty = false)
    (hsp : args.toList.contains ' ' = true)
    (hsplit : splitFirstSpace (pyStrip args.toList) = (ident, some restl))
    (hres : extractCore env ident = some target)
    (hstaff : (check_access db target "moderator" none &&
      !(check_access db user "admin" none)) = false)
    (hrow : alookup db.users target = some row)
    (hwarns : row.warns = 2) :
    ∃ db2 : DB,
      cmd_warn env db peer user args now =
        some ((db2.ban_user target (autoBanReason 3) now).2,
          [.sendMessage peer (.warnIssued target user (String.mk restl) 3),
           .audit "warn" user (some target) (some peer)
             (some ("Причина: " ++ String.mk restl ++ " (предупреждение " ++
               toString 3 ++ "/3)")),
           .dbBan target (autoBanReason 3),
           .sendMessage peer (.autoBanned target 3),
           .kick peer target,
           .audit "ban" user (some target) (some peer)
             (some ("Автобан: превышение лимита предупреждений (" ++
               toString 3 ++ "/3)"))]) ∧
      DB.get_ban (db2.ban_user target (autoBanReason 3) now).2 target =
        some ⟨autoBanReason 3, now⟩ := by
  simp only [String.toList] at hne hsp hsplit hres
  refine ⟨{ db with
      users := aupdate db.users target (fun r0 => { r0 with warns := r0.warns + 1 }),
      warns := db.warns ++ [⟨db.next_warn_id, target, String.mk restl, now⟩],
      next_warn_id := db.next_warn_id + 1 }, ?_, ?_⟩
  · have hkey : db.add_warn target (String.mk restl) now =
        some (3, { db with
          users := aupdate db.users target (fun r0 => { r0 with warns := r0.warns + 1 }),
          warns := db.warns ++ [⟨db.next_warn_id, target, String.mk restl, now⟩],
          next_warn_id := db.next_warn_id + 1 }) := by
      simp [DB.add_warn, alookup_aupdate_self, hrow, hwarns]
    have hsp2 : ' ' ∈ args.data := by simpa using hsp
    simp [cmd_warn, hne, hsp2, hsplit, hres, hstaff,
      add_user_of_present _ _ _ _ hrow, hkey]
  · simp [DB.ban_user, DB.get_ban, alookup_aupsert_self]

/-- Claim C3 witness: user 20 with two prior warnings gets a third. -/
theorem claim_C3_witness :
    ∃ db2 : DB,
      cmd_warn noApiEnv dbTwoWarns 3000000001 10 "20 spam" 100 =
        some ((db2.ban_user 20 (autoBanReason 3) 100).2,
          [.sendMessage 3000000001 (.warnIssued 20 10 "spam" 3),
           .audit "warn" 10 (some 20) (some 3000000001)
             (some ("Причина: " ++ "spam" ++ " (предупреждение " ++
               toString 3 ++ "/3)")),
           .dbBan 20 (autoBanReason 3),
           .sendMessage 3000000001 (.autoBanned 20 3),
           .kick 3000000001 20,
           .audit "ban" 10 (some 20) (some 3000000001)
             (some ("Автобан: превышение лимита предупреждений (" ++
               toString 3 ++ "/3)"))]) ∧
      DB.get_ban (db2.ban_user 20 (autoBanReason 3) 100).2 20 =
        some ⟨autoBanReason 3, 100⟩ :=
  claim_C3_third_warn_autoban noApiEnv dbTwoWarns 3000000001 10 20 100 "20 spam"
    "20".toList "spam".toList { role := "user", warns := 2 }
    (by decide) (by decide) (by decide) (by decide) (by decide) (by decide) rfl

/-! ## Claim C5 -/

theorem selectNewestWarn_aux (t : List WarnRow) (b : WarnRow) :
    ∃ w, t.foldl
      (fun acc e =>
        match acc with
        | none => some e
        | some b' => if b'.timestamp < e.timestamp then some e else some b')
      (some b) = some w ∧ (w ∈ t ∨ w = b) := by
  induction t generalizing b with
  | nil => exact ⟨b, rfl, Or.inr rfl⟩
  | cons e t ih =>
    simp only [List.foldl_cons]
    by_cases hc : b.timestamp < e.timestamp
    · obtain ⟨w, hw, hm⟩ := ih e
      refine ⟨w, by simpa [hc] using hw, ?_⟩
      rcases hm with h | h
      · exact Or.inl (List.mem_cons_of_mem _ h)
      · exact Or.inl (by simp [h])
    · obtain ⟨w, hw, hm⟩ := ih b
      refine ⟨w, by simpa [hc] using hw, ?_⟩
      rcases hm with h | h
      · exact Or.inl (List.mem_cons_of_mem _ h)
      · exact Or.inr h

theorem selectNewestWarn_mem (l : List WarnRow) (hl : l ≠ []) :
    ∃ w, selectNewestWarn l = some w ∧ w ∈ l := by
  cases l with
  | nil => exact absurd rfl hl
  | cons a t =>
    obtain ⟨w, hw, hm⟩ := selectNewestWarn_aux t a
    refine ⟨w, by simpa [selectNewestWarn] using hw, ?_⟩
    rcases hm with h | h
    · exact List.mem_cons_of_mem _ h
    · simp [h]

theorem filter_ne_id_length (l : List WarnRow) (w : WarnRow)
    (hmem : w ∈ l) (hnodup : (l.map (fun e => e.id)).Nodup) :
    (l.filter (fun e => e.id ≠ w.id)).length = l.length - 1 := by
  induction l with
  | nil => cases hmem
  | cons a t ih =>
    rw [List.map_cons, List.nodup_cons] at hnodup
    by_cases ha : a.id = w.id
    · have hkeep : t.filter (fun e => e.id ≠ w.id) = t := by
        apply List.filter_eq_self.mpr
        intro e he
        have hne : e.id ≠ w.id := by
          intro hew
          apply hnodup.1
          rw [ha, ← hew]
          exact List.mem_map_of_mem _ he
        simpa using hne
      have hdrop : (a :: t).filter (fun e => e.id ≠ w.id) =
          t.filter (fun e => e.id ≠ w.id) := by
        simp [List.filter_cons, ha]
      rw [hdrop, hkeep, List.length_cons]
      omega
    · have hwt : w ∈ t := by
        rcases List.mem_cons.mp hmem with h | h
        · exact absurd (by rw [h]) ha
        · exact h
      have hlen := ih hwt hnodup.2
      have hpos : 0 < t.length := List.length_pos.mpr (List.ne_nil_of_mem hwt)
      have hkeep : (a :: t).filter (fun e => e.id ≠ w.id) =
          a :: t.filter (fun e => e.id ≠ w.id) := by
        simp [List.filter_cons, ha]
      rw [hkeep, List.length_cons, hlen, List.length_cons]
      omega

theorem filter_swap_warn (l : List WarnRow) (u : Nat) (i : Nat) :
    (l.filter (fun e => e.id ≠ i)).filter (fun w => w.user_id = u) =
      (l.filter (fun w => w.user_id = u)).filter (fun e => e.id ≠ i) := by
  rw [List.filter_filter, List.filter_filter]
  exact List.filter_congr (fun a _ => Bool.and_comm _ _)

theorem add_warn_step (db : DB) (u k : Nat) (r : String) (t : Nat)
    (h : WarnInv db u k) :
    ∃ db', db.add_warn u r t = some (k + 1, db') ∧ WarnInv db' u (k + 1) := by
  obtain ⟨⟨row, hrow, hwarns⟩, hlen, hnodup, hbound⟩ := h
  set nw : WarnRow := ⟨db.next_warn_id, u, r, t⟩ with hnw
  set db' : DB := { db with
      users := aupdate db.users u (fun r0 => { r0 with warns := r0.warns + 1 }),
      warns := db.warns ++ [nw],
      next_warn_id := db.next_warn_id + 1 } with hdb'
  have hents : warnEntries db' u = warnEntries db u ++ [nw] := by
    simp [warnEntries, hdb', List.filter_append, hnw]
  have hnext : db'.next_warn_id = db.next_warn_id + 1 := by rw [hdb']
  refine ⟨db', ?_, ?_, ?_, ?_, ?_⟩
  · simp [DB.add_warn, hdb', hnw, alookup_aupdate_self, hrow, hwarns]
  · exact ⟨{ row with warns := row.warns + 1 },
      by simp [hdb', alookup_aupdate_self, hrow], by simp [hwarns]⟩
  · rw [hents, List.length_append, hlen]
    simp
  · rw [hents, List.map_append, List.nodup_append]
    refine ⟨hnodup, by simp, ?_⟩
    intro x hx hy
    simp only [hnw, List.map_cons, List.map_nil, List.mem_singleton] at hy
    obtain ⟨e, he, hex⟩ := List.mem_map.mp hx
    have hb := hbound e he
    omega
  · intro w hw
    rw [hents] at hw
    rw [hnext]
    rcases List.mem_append.mp hw with h1 | h1
    · exact Nat.lt_succ_of_lt (hbound w h1)
    · have hwnw : w = nw := by simpa using h1
      rw [hwnw, hnw]
      exact Nat.lt_succ_self _

theorem remove_warn_step (db : DB) (u k : Nat) (h : WarnInv db u (k + 1)) :
    ∃ db', db.remove_warn u = (k, db') ∧ WarnInv db' u k := by
  obtain ⟨⟨row, hrow, hwarns⟩, hlen, hnodup, hbound⟩ := h
  have hne : warnEntries db u ≠ [] := by
    intro hh; rw [hh] at hlen; simp at hlen
  obtain ⟨w, hsel, hmem⟩ := selectNewestWarn_mem _ hne
  set db' : DB := { db with
      warns := db.warns.filter (fun e => e.id ≠ w.id),
      users := aupdate db.users u (fun r0 => { r0 with warns := r0.warns - 1 }) }
    with hdb'
  have hents : warnEntries db' u = (warnEntries db u).filter (fun e => e.id ≠ w.id) := by
    simp only [warnEntries, hdb']
    exact filter_swap_warn db.warns u w.id
  have hnext : db'.next_warn_id = db.next_warn_id := by rw [hdb']
  have hflen := filter_ne_id_length (warnEntries db u) w hmem hnodup
  refine ⟨db', ?_, ?_, ?_, ?_, ?_⟩
  · rw [DB.remove_warn, hsel]
    simp [hdb', alookup_aupdate_self, hrow, hwarns]
  · exact ⟨{ row with warns := row.warns - 1 },
      by simp [hdb', alookup_aupdate_self, hrow], by simp [hwarns]⟩
  · rw [hents, hflen, hlen]
    omega
  · rw [hents]
    exact List.Nodup.sublist (List.Sublist.map _ (List.filter_sublist _)) hnodup
  · intro e he
    rw [hents] at he
    rw [hnext]
    exact hbound e (List.mem_of_mem_filter he)

theorem iterWarn_inv (u : Nat) (L : List (String × Nat)) :
    ∀ (db : DB) (k : Nat), WarnInv db u k →
      ∃ db', iterWarn u L db = some db' ∧ WarnInv db' u (k + L.length) := by
  induction L with
  | nil =>
    intro db k h
    exact ⟨db, rfl, by simpa using h⟩
  | cons rt rest ih =>
    intro db k h
    obtain ⟨db1, hadd, hinv⟩ := add_warn_step db u k rt.1 rt.2 h
    obtain ⟨db', hiter, hinv'⟩ := ih db1 (k + 1) hinv
    refine ⟨db', ?_, ?_⟩
    · simp [iterWarn, hadd, hiter]
    · have heq : k + 1 + rest.length = k + (rt :: rest).length := by
        simp [List.length_cons]; omega
      rwa [heq] at hinv'

theorem iterUnwarn_inv (u : Nat) (M : Nat) :
    ∀ (db : DB) (k : Nat), WarnInv db u k → M ≤ k →
      WarnInv (iterUnwarn u M db) u (k - M) := by
  induction M with
  | zero =>
    intro db k h _
    simpa using h
  | succ m ih =>
    intro db k h hm
    have hkpos : 0 < k := Nat.lt_of_lt_of_le (Nat.succ_pos m) hm
    have hmk : m ≤ k - 1 := by omega
    have hk : k - 1 + 1 = k := Nat.succ_pred_eq_of_pos hkpos
    obtain ⟨db', hrem, hinv⟩ := remove_warn_step db u (k - 1) (hk ▸ h)
    have h2 : (db.remove_warn u).2 = db' := by rw [hrem]
    have h3 := ih db' (k - 1) hinv hmk
    have heq : k - 1 - m = k - (m + 1) := by omega
    have hstep : iterUnwarn u (m + 1) db = iterUnwarn u m (db.remove_warn u).2 := rfl
    rw [hstep, h2, ← heq]
    exact h3

theorem get_warns_of_inv (db : DB) (u k : Nat) (h : WarnInv db u k) :
    db.get_warns u = k := by
  obtain ⟨⟨row, hrow, hw⟩, _, _, _⟩ := h
  simp [DB.get_warns, hrow, hw]

/-- Claim C5: starting from a stored user with counter 0 and no warning
entries, N `add_warn` operations followed by M `remove_warn` operations
(M ≤ N) leave the stored warning count at exactly N − M; and `remove_warn`
on a user with no warning entries returns 0 without modifying anything. -/
theorem claim_C5_warn_unwarn_counter :
    (∀ (db : DB) (u : Nat) (L : List (String × Nat)) (M : Nat) (row : UserRow),
      alookup db.users u = some row → row.warns = 0 → warnEntries db u = [] →
      M ≤ L.length →
      ∃ db', iterWarn u L db = some db' ∧
        DB.get_warns (iterUnwarn u M db') u = L.length - M) ∧
    (∀ (db : DB) (u : Nat), warnEntries db u = [] → db.remove_warn u = (0, db)) := by
  constructor
  · intro db u L M row hrow hw hent hM
    have hinv : WarnInv db u 0 :=
      ⟨⟨row, hrow, hw⟩, by simp [hent], by simp [hent], by simp [hent]⟩
    obtain ⟨db', hiter, hinv'⟩ := iterWarn_inv u L db 0 hinv
    refine ⟨db', hiter, ?_⟩
    have h2 := iterUnwarn_inv u M db' L.length (by simpa using hinv')
      (by simpa using hM)
    exact get_warns_of_inv _ _ _ h2
  · intro db u h
    rw [DB.remove_warn, h]
    rfl

/-- Claim C5 witness: two warns then one unwarn on a fresh user leaves
count 1. -/
theorem claim_C5_witness :
    ∃ db', iterWarn 5 [("a", 1), ("b", 2)] dbOneUser = some db' ∧
      DB.get_warns (iterUnwarn 5 1 db') 5 = 1 :=
  claim_C5_warn_unwarn_counter.1 dbOneUser 5 [("a", 1), ("b", 2)] 1
    { role := "user" } (by decide) rfl (by decide) (by decide)

end IceManager
